import Mathlib

/-!
Verification of the OLAF CANopen node core (oresat-linux-app) against its
natural-language specification.  The definitions below are a shallow
embedding of the Python source in src/olaf/canopen/node.py and
src/olaf/_internals/app.py: pure fragments become Lean functions, fallible
code returns Except, machine integers are Nat/Int.
-/

namespace Olaf

/-! ## CANopen object dictionary data-type codes

Embedding of the constants of the python canopen.objectdictionary module
that node.py imports (INTEGER_TYPES, FLOAT_TYPES, OCTET_STRING, DOMAIN, ...).
-/

def BOOLEAN : Nat := 0x1

def INTEGER8 : Nat := 0x2

def INTEGER16 : Nat := 0x3

def INTEGER32 : Nat := 0x4

def UNSIGNED8 : Nat := 0x5

def UNSIGNED16 : Nat := 0x6

def UNSIGNED32 : Nat := 0x7

def REAL32 : Nat := 0x8

def VISIBLE_STRING : Nat := 0x9

def OCTET_STRING : Nat := 0xA

def UNICODE_STRING : Nat := 0xB

def DOMAIN : Nat := 0xF

def REAL64 : Nat := 0x11

def INTEGER64 : Nat := 0x15

def UNSIGNED64 : Nat := 0x1B

def SIGNED_TYPES : List Nat := [INTEGER8, INTEGER16, INTEGER32, INTEGER64]

def UNSIGNED_TYPES : List Nat := [UNSIGNED8, UNSIGNED16, UNSIGNED32, UNSIGNED64]

def INTEGER_TYPES : List Nat := SIGNED_TYPES ++ UNSIGNED_TYPES

def FLOAT_TYPES : List Nat := [REAL32, REAL64]

/-! ## Python values and errors -/

/-- Embedding of the Python values stored in OD variables on the verified
paths: ints, bools (a subclass of int in Python), strings and byte blobs. -/
inductive PyValue
  | int (i : Int)
  | bool (b : Bool)
  | str (s : String)
  | bytes (b : List Nat)
  deriving DecidableEq, Repr

/-- Embedding of the Python exception classes raised by the embedded code. -/
inductive OdError
  | valueError
  | typeError
  | nameError
  | keyError
  | indexError
  | zeroDivisionError
  deriving DecidableEq, Repr

/-- Python isinstance(value, int): true for int and for bool, since bool is
a subclass of int in Python. -/
def pyIsInstanceInt : PyValue → Bool
  | .int _ => true
  | .bool _ => true
  | _ => false

/-- Python type(value) == int: true only for a genuine int, not for a bool. -/
def pyTypeIsInt : PyValue → Bool
  | .int _ => true
  | _ => false

/-- Numeric content of a Python value, used by the source where it compares
a type-checked value against min and max. -/
def pyNumVal : PyValue → Int
  | .int i => i
  | .bool b => if b then 1 else 0
  | _ => 0

/-- Nonnegative integer content of a stored Python value for the bitwise
operators of the bitfield helpers; any other tag would raise TypeError in
Python when hit by the bitwise operators.  OD bitfield entries hold
unsigned integers, so the nonnegative restriction covers the source uses. -/
def pyValueBits : PyValue → Except OdError Nat
  | .int i => if i < 0 then .error .typeError else .ok i.toNat
  | .bool b => .ok (if b then 1 else 0)
  | _ => .error .typeError

/-! ## OD variables -/

/-- Embedding of a canopen ODVariable as read and written by node.py: the
attributes the embedded helpers touch. A min or max of 0 means unbounded. -/
structure ODVariable where
  name : String
  data_type : Nat
  value : PyValue
  default : PyValue
  min : Int
  max : Int
  factor : Int
  bit_definitions : List (String × List Nat)
  value_descriptions : List (Int × String)
  deriving DecidableEq, Repr

/-- Heterogeneous Python objects, to embed the membership test of od_read:
the source writes data_type in [INTEGER_TYPES, FLOAT_TYPES], a test of an
int against a list whose two elements are tuples. -/
inductive PyObj
  | ofNat (n : Nat)
  | ofList (l : List Nat)
  deriving DecidableEq, Repr

/-- Python value multiplied by the scaling factor, as in value *= obj.factor
of od_read.  Only the numeric tags occur on the guarded branch. -/
def pyMulFactor (v : PyValue) (factor : Int) : PyValue :=
  match v with
  | .int i => .int (i * factor)
  | .bool b => .int ((if b then 1 else 0) * factor)
  | v => v

/-- Embedding of Node.od_read (node.py lines 668-692), at the granularity of
the variable the index and subindex resolve to.  The source condition is
written obj.data_type in [INTEGER_TYPES, FLOAT_TYPES], which tests the
integer type code for equality against the two lists themselves. -/
def od_read (obj : ODVariable) : PyValue :=
  let value := obj.value
  if PyObj.ofNat obj.data_type ∈ [PyObj.ofList INTEGER_TYPES, PyObj.ofList FLOAT_TYPES] then
    if obj.factor ≠ 1 then pyMulFactor value obj.factor else value
  else value

/-- Embedding of Node.od_write (node.py lines 770-798), at the granularity
of the variable the index and subindex resolve to: the source raises
ValueError when the data type is an integer type and the value is an
instance of int, and otherwise stores the value unchanged. -/
def od_write (obj : ODVariable) (value : PyValue) : Except OdError ODVariable :=
  if obj.data_type ∈ INTEGER_TYPES ∧ pyIsInstanceInt value then
    .error .valueError
  else
    .ok { obj with value := value }

/-- Embedding of the bounds block of Node._var_write: the source only
enforces the range when obj.min != 0 and obj.max != 0, raising ValueError
above max or below min. -/
def checkBounds (obj : ODVariable) (value : PyValue) : Except OdError Unit :=
  if obj.min ≠ 0 ∧ obj.max ≠ 0 then
    if pyNumVal value > obj.max then .error .valueError
    else if pyNumVal value < obj.min then .error .valueError
    else .ok ()
  else .ok ()

/-- Embedding of Node._var_write (node.py lines 742-768).  For integer
types the value must have type int exactly; for float types the source
tests not isinstance(value, int); the final elif compares against
VISIBLE_STRING, a name node.py never imports, so reaching it raises
NameError.  The function validates only and never stores. -/
def var_write (obj : ODVariable) (value : PyValue) : Except OdError Unit :=
  if obj.data_type ∈ INTEGER_TYPES then
    if !pyTypeIsInt value then .error .typeError
    else checkBounds obj value
  else if obj.data_type ∈ FLOAT_TYPES then
    if !pyIsInstanceInt value then .error .typeError
    else checkBounds obj value
  else .error .nameError

/-! ## Bitfield helpers -/

/-- Lookup of obj.bit_definitions[field]; a missing key raises KeyError. -/
def lookupField (defs : List (String × List Nat)) (field : String) :
    Except OdError (List Nat) :=
  match defs.find? (fun p => p.1 == field) with
  | some p => .ok p.2
  | none => .error .keyError

/-- Python min() over a list; empty input raises ValueError. -/
def listMin : List Nat → Except OdError Nat
  | [] => .error .valueError
  | x :: xs => .ok (xs.foldl Nat.min x)

/-- Indexing bits[i]; out of range raises IndexError.  The source indexes
the bits list by its own elements, writing bits[i] for i in bits. -/
def bitsIndex (bits : List Nat) (i : Nat) : Except OdError Nat :=
  match bits.get? i with
  | some b => .ok b
  | none => .error .indexError

/-- Embedding of the mask loop of od_write_bitfield: for i in bits the
source does mask |= 1 << bits[i], indexing the list by its elements. -/
def maskLoop (bits : List Nat) : Except OdError Nat :=
  bits.foldlM (fun mask i => do
    let bi ← bitsIndex bits i
    pure (mask ||| (1 <<< bi))) 0

/-- Embedding of the gather loop of od_read_bitfield: starting from 0, for
i in bits the source does value |= (stored & (1 << bits[i])) >> bits[i]. -/
def readBitsLoop (bits : List Nat) (stored : Nat) : Except OdError Nat :=
  bits.foldlM (fun value i => do
    let bi ← bitsIndex bits i
    pure (value ||| ((stored &&& (1 <<< bi)) >>> bi))) 0

/-- Embedding of Node.od_read_bitfield (node.py lines 694-720). -/
def od_read_bitfield (obj : ODVariable) (field : String) : Except OdError Nat := do
  let bits ← lookupField obj.bit_definitions field
  let stored ← pyValueBits obj.value
  readBitsLoop bits stored

/-- Embedding of Node.od_write_bitfield (node.py lines 800-816): the source
computes offset = min(bits), builds the mask, then does new_value =
obj.value; new_value ^= mask; new_value |= value << offset, storing the
result.  Note the source XORs the mask rather than clearing it. -/
def od_write_bitfield (obj : ODVariable) (field : String) (value : Nat) :
    Except OdError ODVariable := do
  let bits ← lookupField obj.bit_definitions field
  let offset ← listMin bits
  let mask ← maskLoop bits
  let stored ← pyValueBits obj.value
  let nv := (stored ^^^ mask) ||| (value <<< offset)
  pure { obj with value := .int (nv : Int) }

/-! ## TPDO sending and SYNC handling -/

/-- Embedding of the argument check and row addressing of Node.send_tpdo
(node.py lines 205-227): the source raises ValueError when tpdo < 1, then
decrements and addresses communication row 0x1800 + tpdo and mapping row
0x1A00 + tpdo; the transmission itself is Node._send_pdo, embedded
separately as send_pdo. -/
def send_tpdo (tpdo : Int) : Except OdError (Int × Int) :=
  if tpdo < 1 then .error .valueError
  else .ok (0x1800 + (tpdo - 1), 0x1A00 + (tpdo - 1))

/-- Embedding of the slot loop of Node._on_sync: for i in range(16) the
source reads the transmission type of slot i and, when syncs modulo that
type is 0, calls self.send_tpdo(i, False).  A transmission type of 0 makes
the modulo raise ZeroDivisionError; the send_tpdo argument check can raise
ValueError; either exception aborts the handler.  The result collects the
tpdo arguments successfully passed to send_tpdo, in slot order. -/
def onSyncSlots (s : Nat) : Nat → List Nat → Except OdError (List Int)
  | _, [] => .ok []
  | i, tt :: rest =>
    if tt = 0 then .error .zeroDivisionError
    else if s % tt = 0 then
      match send_tpdo (i : Int) with
      | .error e => .error e
      | .ok _ =>
        match onSyncSlots s (i + 1) rest with
        | .error e => .error e
        | .ok ns => .ok ((i : Int) :: ns)
    else onSyncSlots s (i + 1) rest

/-- Embedding of Node._on_sync (node.py lines 142-152): the counter is
incremented and wraps to 1 when it reaches 241, then the 16 slots are
walked with onSyncSlots.  The tts argument is the list of the 16
transmission-type values OD[0x1800 + i][2].value. -/
def on_sync (syncs : Nat) (tts : List Nat) : Except OdError (Nat × List Int) :=
  let s := if syncs + 1 = 241 then 1 else syncs + 1
  match onSyncSlots s 0 tts with
  | .error e => .error e
  | .ok sent => .ok (s, sent)

/-! ## PDO frame assembly and EMCY -/

/-- EmcyCode values used by the embedded paths.  Modelled from the spec:
the EmcyCode enum lives in the olaf.canopen package, whose source is not
under src; the spec names PROTOCOL_PDO_LEN_EXCEEDED and COMM_RECOVERED_BUS
as its members used here, 16-bit CANopen emergency codes. -/
inductive EmcyCode
  | protocolPdoLenExceeded
  | commRecoveredBus
  deriving DecidableEq, Repr

/-- Numeric value of an EmcyCode member, as Python code.value. -/
def EmcyCode.value : EmcyCode → Nat
  | .protocolPdoLenExceeded => 0x8210
  | .commRecoveredBus => 0x8140

/-- Outcome of a PDO send attempt. -/
inductive PdoOutcome
  | emcy (code : EmcyCode)
  | send (cobId : Nat) (data : List Nat)
  deriving DecidableEq, Repr

/-- Embedding of the assembly loop of Node._send_pdo: each mapping slot
carries its 32-bit map word and the bytes its mapped entry encodes to; a
map word of 0 terminates the loop, otherwise the bytes are concatenated. -/
def assemblePdoData : List (Nat × List Nat) → List Nat
  | [] => []
  | (w, bs) :: rest => if w = 0 then [] else bs ++ assemblePdoData rest

/-- Embedding of the tail of Node._send_pdo (node.py lines 154-203) after
the network and NMT-state guards: the COB-ID is the communication row
subindex 1 value masked with 0x3FFFFFFF; the mapped bytes are concatenated;
if more than 8 bytes result an EMCY with code PROTOCOL_PDO_LEN_EXCEEDED is
sent and the frame is dropped, otherwise the frame is transmitted. -/
def send_pdo (cobIdRaw : Nat) (maps : List (Nat × List Nat)) : PdoOutcome :=
  let cobId := cobIdRaw &&& 0x3FFFFFFF
  let data := assemblePdoData maps
  if data.length > 8 then .emcy .protocolPdoLenExceeded
  else .send cobId data

/-! ## PDO COB-ID sanitization on load (app.py) -/

/-- Embedding of the reserved default COB-ID lists of App.setup: for RPDOs
the base is 0x200 giving [0x200, 0x300, 0x400, 0x500] + node_id, for TPDOs
the base is 0x180 giving [0x180, 0x280, 0x380, 0x480] + node_id. -/
def reservedDefaults (base node_id : Nat) : List Nat :=
  [base + node_id, base + 0x100 + node_id, base + 0x200 + node_id, base + 0x300 + node_id]

/-- Embedding of one iteration of the COB-ID fix loop of App.setup (app.py
lines 149-180): take the default of subindex 1 of slot i, mask its low 12
bits, and if the result is one of the reserved defaults store base +
0x100 * (i % 4) + node_id + i / 4, else store the default unchanged. -/
def fixCobId (node_id base i default : Nat) : Nat :=
  if (default &&& 0xFFF) ∈ reservedDefaults base node_id then
    base + 0x100 * (i % 4) + node_id + i / 4
  else default

/-- Embedding of a whole COB-ID fix loop of App.setup over the per-slot
default COB-IDs. -/
def fixPdoCobIds (node_id base : Nat) (defaults : List Nat) : List Nat :=
  defaults.mapIdx (fun i d => fixCobId node_id base i d)

/-- Modelled from the spec: the default COB-IDs of the 16 PDO slots in the
EDS file shipped by the repository (the EDS is not under src).  Per the
spec scenario Default-slot repair, the configuration only defines four
defaults, each slot cycling base + 0x100 * (i % 4) + node_id. -/
def edsPdoDefaults (base node_id : Nat) : List Nat :=
  (List.range 16).map (fun i => base + 0x100 * (i % 4) + node_id)

/-! ## Node run loop and stop disposition -/

/-- Embedding of the NodeStop enum of node.py. -/
inductive NodeStop
  | softReset
  | hardReset
  | factoryReset
  | powerOff
  deriving DecidableEq, Repr

/-- Integer value of a NodeStop member. -/
def NodeStop.toInt : NodeStop → Int
  | .softReset => 1
  | .hardReset => 2
  | .factoryReset => 3
  | .powerOff => 4

/-- The part of the Node state that the run and stop entries touch: the
reset disposition and the stop event flag. -/
structure NodeState where
  reset : NodeStop
  eventSet : Bool
  deriving DecidableEq, Repr

/-- Embedding of Node.stop (node.py lines 434-439): when the optional reset
argument is present the disposition is stored, and the event is set. -/
def node_stop (s : NodeState) (reset : Option NodeStop) : NodeState :=
  { reset := reset.getD s.reset, eventSet := true }

/-- Embedding of the Node._monitor_can loop as far as the run and stop
claims need it: the loop head checks the stop event each tick and exits
when it is set; the bus-supervision body touches neither the event nor the
reset disposition.  Fuel bounds the number of ticks observed; none means
the loop was still running after that many ticks. -/
def monitor_can : Nat → NodeState → Option NodeState
  | 0, s => if s.eventSet then some s else none
  | fuel + 1, s => if s.eventSet then some s else monitor_can fuel s

/-- Embedding of Node.run (node.py lines 408-432): run the monitor loop,
then return the stored reset disposition as an integer. -/
def node_run (fuel : Nat) (s : NodeState) : Option Int :=
  (monitor_can fuel s).map (fun s2 => s2.reset.toInt)

/-! ## EMCY sending -/

/-- The Union[EmcyCode, int] argument of Node.send_emcy. -/
inductive EmcyArg
  | code (c : EmcyCode)
  | int (n : Int)
  deriving DecidableEq, Repr

/-- Errors Node.send_emcy could surface: NetworkError when the network is
absent, and ValueError as the would-be rejection of a bad code, which the
source never raises. -/
inductive EmcyError
  | networkError
  | valueError
  deriving DecidableEq, Repr

/-- Outcome of Node.send_emcy when it does not raise. -/
inductive EmcyOutcome
  | notSent
  | sent (code : Int) (errorRegister : Int) (data : List Nat)
  deriving DecidableEq, Repr

/-- Embedding of Node.send_emcy (node.py lines 493-525): when the network
is absent, raise NetworkError or return silently per the flag; otherwise
replace an EmcyCode by its integer value and forward the code, the current
error register OD[0x1001].value, and the data to the EMCY producer, with no
validation or truncation of the code.  Transport exceptions are swallowed
by the source, so the forwarded triple is the outcome either way. -/
def send_emcy (networkUp : Bool) (errorRegister : Int) (code : EmcyArg)
    (data : List Nat) (raiseException : Bool) : Except EmcyError EmcyOutcome :=
  if !networkUp then
    if raiseException then .error .networkError else .ok .notSent
  else
    let codeVal : Int :=
      match code with
      | .code c => (c.value : Int)
      | .int n => n
    .ok (.sent codeVal errorRegister data)

/-! ## Sample variables for concrete evaluations -/

/-- Base sample variable with the given data type and stored value. -/
def mkVar (dataType : Nat) (value : PyValue) : ODVariable :=
  { name := "var", data_type := dataType, value := value, default := value,
    min := 0, max := 0, factor := 1, bit_definitions := [], value_descriptions := [] }

/-- Sample INTEGER8 variable holding 0. -/
def sampleIntVar : ODVariable := mkVar INTEGER8 (.int 0)

/-- Sample REAL32 variable with bounds 1..10 holding 2. -/
def sampleBoundedFloatVar : ODVariable :=
  { mkVar REAL32 (.int 2) with min := 1, max := 10 }

/-- Sample INTEGER8 variable with scaling factor 2 holding 3. -/
def sampleFactorVar : ODVariable :=
  { mkVar INTEGER8 (.int 3) with factor := 2 }

/-- Sample UNSIGNED8 variable holding 0 with a one-bit field F at bit 0. -/
def sampleBitfieldVar : ODVariable :=
  { mkVar UNSIGNED8 (.int 0) with bit_definitions := [("F", [0])] }

/-! ## Theorems -/

/-- Claim C1: the claim says od_write succeeds for int values on integer
typed entries and rejects type mismatches; the source does the opposite.
Writing the int 5 to an INTEGER8 variable raises ValueError, while writing
the string abc to the same variable succeeds and stores the string. -/
theorem od_write_inverted_type_check :
    od_write sampleIntVar (.int 5) = .error .valueError ∧
    od_write sampleIntVar (.str "abc") = .ok { sampleIntVar with value := .str "abc" } ∧
    sampleIntVar.data_type ∈ INTEGER_TYPES := by
  refine ⟨rfl, rfl, ?_⟩
  decide

/-- Claim C2: the claim says the SYNC handler skips slots with transmission
type 0 and sends TPDO n+1 for due slots, never failing.  In the source a
transmission type of 0 raises ZeroDivisionError, and a due slot n calls
send_tpdo(n) so slot 0 raises ValueError; only the counter wrap 240 to 1
behaves as claimed. -/
theorem on_sync_handler_fails :
    on_sync 0 (List.replicate 16 0) = .error .zeroDivisionError ∧
    on_sync 0 (List.replicate 16 1) = .error .valueError ∧
    on_sync 240 (List.replicate 16 2) = .ok (1, []) := by
  exact ⟨rfl, rfl, rfl⟩

/-- Claim C3 counterexample: the claim says send_tpdo(17) fails with
InvalidArg, but the source only checks the lower bound, so 17 is accepted
and addresses rows 0x1810 and 0x1A10. -/
theorem send_tpdo_17_accepted :
    send_tpdo 17 = .ok (0x1810, 0x1A10) := by
  rfl

/-- Claim C3 as amended: send_tpdo fails with InvalidArg exactly when the
number is below 1 (so for 0), and every number from 1 up, including 17, is
accepted and addresses communication row 0x1800 + n - 1 and mapping row
0x1A00 + n - 1; no upper bound is enforced. -/
theorem send_tpdo_lower_bound_only (n : Int) :
    (n < 1 → send_tpdo n = .error .valueError) ∧
    (1 ≤ n → send_tpdo n = .ok (0x1800 + (n - 1), 0x1A00 + (n - 1))) := by
  constructor
  · intro h
    simp [send_tpdo, h]
  · intro h
    rw [send_tpdo, if_neg (by omega)]

/-- Claim C3 witness: the amended claim evaluated at 0 and at 17. -/
theorem send_tpdo_lower_bound_only_inst :
    send_tpdo 0 = .error .valueError ∧
    send_tpdo 17 = .ok (0x1800 + (17 - 1), 0x1A00 + (17 - 1)) :=
  ⟨(send_tpdo_lower_bound_only 0).1 (by decide),
   (send_tpdo_lower_bound_only 17).2 (by decide)⟩

/-- Claim C4: a slot whose default COB-ID has its low 12 bits among the
reserved defaults is rewritten to base + 0x100 * (i % 4) + node_id + i / 4,
any other slot keeps its default, and with node_id 0x10 and the EDS
defaults the 16 TPDO COB-IDs come out as 0x190, 0x290, ..., 0x493 and all
32 TPDO and RPDO COB-IDs are pairwise distinct. -/
theorem pdo_cob_id_sanitization :
    (∀ node_id base i d, (d &&& 0xFFF) ∈ reservedDefaults base node_id →
        fixCobId node_id base i d = base + 0x100 * (i % 4) + node_id + i / 4) ∧
    (∀ node_id base i d, (d &&& 0xFFF) ∉ reservedDefaults base node_id →
        fixCobId node_id base i d = d) ∧
    fixPdoCobIds 0x10 0x180 (edsPdoDefaults 0x180 0x10) =
      [0x190, 0x290, 0x390, 0x490, 0x191, 0x291, 0x391, 0x491,
       0x192, 0x292, 0x392, 0x492, 0x193, 0x293, 0x393, 0x493] ∧
    (fixPdoCobIds 0x10 0x180 (edsPdoDefaults 0x180 0x10) ++
      fixPdoCobIds 0x10 0x200 (edsPdoDefaults 0x200 0x10)).Nodup := by
  refine ⟨?_, ?_, by decide, by decide⟩
  · intro node_id base i d h
    simp [fixCobId, h]
  · intro node_id base i d h
    simp [fixCobId, h]

/-- Claim C4 witness: slot 4 with the reserved TPDO default 0x190 under
node_id 0x10 is rewritten to 0x191, and a non-reserved default 0x7B7 is
kept. -/
theorem pdo_cob_id_sanitization_inst :
    fixCobId 0x10 0x180 4 0x190 = 0x180 + 0x100 * (4 % 4) + 0x10 + 4 / 4 ∧
    fixCobId 0x10 0x180 4 0x7B7 = 0x7B7 :=
  ⟨pdo_cob_id_sanitization.1 0x10 0x180 4 0x190 (by decide),
   pdo_cob_id_sanitization.2.1 0x10 0x180 4 0x7B7 (by decide)⟩

/-- Claim C5: the claim says writes outside a nonzero range fail with
OutOfRange and successful writes stay in range.  In the source, od_write
never invokes the range validation, so writing 100 to a REAL32 variable
bounded by 1..10 succeeds and stores 100, above max; moreover the
validator itself only checks when both min and max are nonzero, accepting
100 on a variable with min 0 and max 10. -/
theorem od_write_skips_range_check :
    od_write sampleBoundedFloatVar (.int 100) =
      .ok { sampleBoundedFloatVar with value := .int 100 } ∧
    sampleBoundedFloatVar.max < 100 ∧
    var_write { sampleIntVar with max := 10 } (.int 100) = .ok () := by
  exact ⟨rfl, by decide, rfl⟩

/-- Claim C6: the claim says od_read returns the stored value scaled by the
factor when the factor is not 1.  The source tests the data type for
membership in the two element list holding INTEGER_TYPES and FLOAT_TYPES
themselves, which is never true, so the factor is never applied: an
INTEGER8 variable with factor 2 storing 3 reads back 3, and in general
od_read returns the stored value unchanged. -/
theorem od_read_factor_not_applied :
    od_read sampleFactorVar = .int 3 ∧
    sampleFactorVar.factor = 2 ∧
    ∀ obj : ODVariable, od_read obj = obj.value := by
  refine ⟨rfl, rfl, ?_⟩
  intro obj
  have h : PyObj.ofNat obj.data_type ∉
      [PyObj.ofList INTEGER_TYPES, PyObj.ofList FLOAT_TYPES] := by
    intro hmem
    rcases List.mem_cons.mp hmem with h1 | h1
    · exact PyObj.noConfusion h1
    · rcases List.mem_cons.mp h1 with h2 | h2
      · exact PyObj.noConfusion h2
      · exact List.not_mem_nil _ h2
  simp [od_read, h]

/-- Claim C7: the claim says the bitfield write clears the field bits, so
reading the field back yields the written value masked to the field width.
The source XORs the mask instead of clearing, so on the one bit field F at
bit 0 with stored value 0, writing 0 flips the bit to 1 and the read back
returns 1, while the claimed value 0 masked to one bit is 0. -/
theorem bitfield_roundtrip_violated :
    (od_write_bitfield sampleBitfieldVar "F" 0).bind
      (fun obj => od_read_bitfield obj "F") = .ok 1 ∧
    (0 : Nat) &&& ((1 <<< 1) - 1) = 0 := by
  exact ⟨rfl, rfl⟩

/-- Claim C8: in a TPDO send, a concatenation of more than 8 mapped bytes
makes the source emit an EMCY with code PROTOCOL_PDO_LEN_EXCEEDED and drop
the frame, while a concatenation of exactly 8 bytes is transmitted on the
masked COB-ID. -/
theorem tpdo_len_guard (cobId : Nat) (maps : List (Nat × List Nat)) :
    ((assemblePdoData maps).length > 8 →
        send_pdo cobId maps = .emcy .protocolPdoLenExceeded) ∧
    ((assemblePdoData maps).length = 8 →
        send_pdo cobId maps = .send (cobId &&& 0x3FFFFFFF) (assemblePdoData maps)) := by
  constructor
  · intro h
    simp [send_pdo, h]
  · intro h
    rw [send_pdo]
    simp [h]

/-- Claim C8 witness: a 9 byte concatenation triggers the EMCY and an
8 byte concatenation is transmitted. -/
theorem tpdo_len_guard_inst :
    send_pdo 0x190 [(1, [0, 0, 0, 0, 0, 0, 0, 0, 0])] = .emcy .protocolPdoLenExceeded ∧
    send_pdo 0x190 [(1, [1, 2, 3, 4, 5, 6, 7, 8])] =
      .send (0x190 &&& 0x3FFFFFFF) (assemblePdoData [(1, [1, 2, 3, 4, 5, 6, 7, 8])]) :=
  ⟨(tpdo_len_guard 0x190 [(1, [0, 0, 0, 0, 0, 0, 0, 0, 0])]).1 (by decide),
   (tpdo_len_guard 0x190 [(1, [1, 2, 3, 4, 5, 6, 7, 8])]).2 (by decide)⟩

/-- Claim C9: for every stop disposition, calling stop with it makes the
monitor loop exit at the next tick regardless of remaining fuel, and run
returns that disposition; in particular a factory reset makes run return
3. -/
theorem stop_disposition_returned (d : NodeStop) (s : NodeState) (fuel : Nat) :
    node_run fuel (node_stop s (some d)) = some d.toInt ∧
    node_run fuel (node_stop s (some .factoryReset)) = some 3 := by
  constructor
  · cases fuel <;> simp [node_run, node_stop, monitor_can]
  · cases fuel <;> simp [node_run, node_stop, monitor_can, NodeStop.toInt]

/-- Claim C10: send_emcy performs no validation or truncation of the code:
with the network up, any integer code, also one above 0xFFFF, is forwarded
unchanged together with the error register, an EmcyCode member is replaced
by its integer value, and the only error the function ever produces is the
network down error, never an invalid argument rejection. -/
theorem send_emcy_no_validation (errReg : Int) (n : Int) (c : EmcyCode)
    (data : List Nat) (re : Bool) :
    send_emcy true errReg (.int n) data re = .ok (.sent n errReg data) ∧
    send_emcy true errReg (.code c) data re = .ok (.sent (c.value : Int) errReg data) ∧
    ∀ nu er cd d r, send_emcy nu er cd d r = .error .networkError ∨
      ∃ o, send_emcy nu er cd d r = .ok o := by
  refine ⟨rfl, rfl, ?_⟩
  intro nu er cd d r
  cases nu <;> cases r <;> simp [send_emcy]

end Olaf
